import Mathlib

/-!
Shallow embedding of the document normalization pipeline: the format
dispatcher parseDocument, the three extractors parsePDF, parseExcel and
parseCSV, and the prompt composer generateAnalysisPrompt. Every definition
is translated from the TypeScript source (the document parser module).
External collaborators (the PDF text-extraction HTTP service, the XLSX
workbook reader and the csv-parser stream) are modelled as inputs: an
extractor receives the data those collaborators would deliver, already
decoded, and the embedding covers everything the module itself computes
from that data. JS-specific behaviour is modelled explicitly: truthiness
tests on optional numbers treat 0 like absence, and the two-decimal KB
figure follows the rounding of toFixed on an exact binary quotient.
-/

/-- Metadata block of a parsed document: the always-present file facts and
the four format-conditional optional fields, absent fields modelled as
none. -/
structure DocumentMetadata where
  fileName : String
  fileType : String
  fileSize : Nat
  pageCount : Option Nat := none
  sheetNames : Option (List String) := none
  rowCount : Option Nat := none
  columnCount : Option Nat := none
deriving Repr, DecidableEq

/-- Uniform result of every extractor: bounded text content plus metadata. -/
structure ParsedDocument where
  content : String
  metadata : DocumentMetadata
deriving Repr, DecidableEq

/-- Input file descriptor: declared name, MIME type and byte size. -/
structure FileDescriptor where
  name : String
  type : String
  size : Nat
deriving Repr, DecidableEq

/-- Decoded reply of the external PDF text-extraction service: the fields
of its JSON payload, each possibly absent. -/
structure PdfResponse where
  content : Option String := none
  pageCount : Option Nat := none
deriving Repr, DecidableEq

/-- JS-truthiness fallback on an optional string, as in the expression
a OR b of the source: the empty string and absence both fall through. -/
def jsOrStr (v : Option String) (fallback : String) : String :=
  match v with
  | some s => if s = "" then fallback else s
  | none => fallback

/-- JS-truthiness fallback on an optional number: 0 and absence both fall
through to the fallback. -/
def jsOrNat (v : Option Nat) (fallback : Nat) : Nat :=
  match v with
  | some n => if n = 0 then fallback else n
  | none => fallback

/-!
The JS string primitives the source leans on (split, trim, toLowerCase,
includes, endsWith) are modelled over the character list of the string by
structural recursion, so that every concrete instance evaluates inside
the kernel.
-/

/-- Occurrence test of a pattern at some position of l, scanning position
by position; an empty pattern occurs everywhere, as with the JS
String.includes. -/
def occursIn (pat : List Char) : List Char → Bool
  | [] => pat.isEmpty
  | c :: cs => pat.isPrefixOf (c :: cs) || occursIn pat cs

/-- Substring test, modelling the JS String.includes. -/
def containsStr (s pat : String) : Bool :=
  occursIn pat.data s.data

/-- Number of positions of l at which the pattern occurs. -/
def occurrenceCount (pat : List Char) : List Char → Nat
  | [] => 0
  | c :: cs => (if pat.isPrefixOf (c :: cs) then 1 else 0) + occurrenceCount pat cs

/-- Number of occurrence positions of a pattern in s; for the one-line
markers counted here, occurrences cannot overlap, so this is the plain
occurrence count. -/
def countOccur (s pat : String) : Nat :=
  occurrenceCount pat.data s.data

/-- JS String.split with a one-character separator, on character lists:
splitting always yields at least one piece, the pieces in order. -/
def splitOnCharList (sep : Char) : List Char → List (List Char)
  | [] => [[]]
  | c :: cs =>
    match splitOnCharList sep cs with
    | [] => [[]]
    | piece :: rest =>
      if c = sep then [] :: piece :: rest else (c :: piece) :: rest

/-- JS fileName.split with the dot separator. -/
def jsSplitDot (s : String) : List String :=
  (splitOnCharList '.' s.data).map (fun l => String.mk l)

/-- JS String.toLowerCase, per character. -/
def jsToLower (s : String) : String :=
  String.mk (s.data.map Char.toLower)

/-- JS String.trim: drop whitespace from both ends. -/
def jsTrim (s : String) : String :=
  String.mk (((s.data.dropWhile Char.isWhitespace).reverse.dropWhile Char.isWhitespace).reverse)

/-- JS String.endsWith. -/
def jsEndsWith (s suffix : String) : Bool :=
  suffix.data.isSuffixOf s.data

/-- The KB figure (fileSize / 1024).toFixed(2) of the source. The double
quotient fileSize / 1024 is exact (division by a power of two), and
toFixed rounds it to two decimals picking the larger candidate on ties,
so the printed value is floor((100 * fileSize + 512) / 1024) split into
integer and two-digit fractional part. -/
def toFixed2KB (fileSize : Nat) : String :=
  let n := (100 * fileSize + 512) / 1024
  toString (n / 100) ++ "." ++
    (if n % 100 < 10 then "0" ++ toString (n % 100) else toString (n % 100))

/-- Extension derivation of parseDocument: fileName.split(dot).pop() with
toLowerCase. Splitting always yields at least one piece, so pop takes the
substring after the last dot, or the whole name when no dot occurs. -/
def getExtension (fileName : String) : String :=
  jsToLower ((jsSplitDot fileName).getLastD "")

/-- Static fallback content of parsePDF: the metadata-only description
synthesized when the primary extraction path fails. -/
def pdfFallbackContent (fileName fileType : String) (fileSize : Nat) : String :=
  "PDF file: " ++ fileName ++
  "\n\nFile Information:\n- File Name: " ++ fileName ++
  "\n- File Type: " ++ fileType ++
  "\n- File Size: " ++ toFixed2KB fileSize ++
  " KB\n- Document Format: PDF\n\nNote: Could not extract text content from this PDF file. Please try uploading a CSV or Excel file for full content analysis, or describe what you\x27re looking for in this PDF and I can provide guidance."

/-- parsePDF of the source. The outcome of the primary path (the call to
the extraction service together with response decoding) is the svc
argument: ok carries the decoded payload, error stands for any failure
(network error, timeout, non-success response, malformed response, which
the source catch absorbs). The function is total: the error case returns
the synthesized fallback document. -/
def parsePDF (svc : Except String PdfResponse) (fileName fileType : String)
    (fileSize : Nat) : ParsedDocument :=
  match svc with
  | .ok data =>
      { content := jsOrStr data.content
          ("PDF file: " ++ fileName ++ "\n\nNote: Could not extract text content from this PDF."),
        metadata :=
          { fileName := fileName, fileType := fileType, fileSize := fileSize,
            pageCount := some (jsOrNat data.pageCount 1) } }
  | .error _ =>
      { content := pdfFallbackContent fileName fileType fileSize,
        metadata :=
          { fileName := fileName, fileType := fileType, fileSize := fileSize,
            pageCount := some 1 } }

/-- One worksheet as delivered by the workbook reader with header mode 1:
the sheet name and its rows, each row a list of cells, a cell being absent
(undefined or null) or a string value. -/
structure Sheet where
  name : String
  rows : List (List (Option String))
deriving Repr, DecidableEq

/-- The cell test of parseExcel: a cell counts as non-empty when it is
neither undefined nor null nor the empty string. -/
def cellNonEmpty : Option String → Bool
  | some s => s != ""
  | none => false

/-- JS Array.join with separator, rendering absent cells as empty text. -/
def joinCells (row : List (Option String)) : String :=
  String.intercalate " | " (row.map (fun c => c.getD ""))

/-- Body of the per-sheet loop of parseExcel, threading the accumulated
content, total row count and maximal column count. -/
def processSheet (acc : String × Nat × Nat) (sheet : Sheet) : String × Nat × Nat :=
  let content := acc.1 ++ "\n\n=== Sheet: " ++ sheet.name ++ " ===\n"
  match sheet.rows with
  | [] => (content, acc.2.1, acc.2.2)
  | headers :: rest =>
    let content :=
      if headers.any cellNonEmpty then
        content ++ "Headers: " ++ joinCells headers ++ "\n"
      else content
    let dataRows := rest.filter (fun row => row.any cellNonEmpty)
    let content := content ++ "Data (" ++ toString dataRows.length ++ " rows):\n"
    let content := content ++ String.join ((dataRows.take 10).enum.map
      (fun p => "Row " ++ toString (p.1 + 1) ++ ": " ++ joinCells p.2 ++ "\n"))
    let content :=
      if dataRows.length > 10 then
        content ++ "... and " ++ toString (dataRows.length - 10) ++ " more rows\n"
      else content
    (content, acc.2.1 + dataRows.length, max acc.2.2 headers.length)

/-- parseExcel of the source, applied to the decoded workbook. -/
def parseExcel (workbook : List Sheet) (fileName fileType : String)
    (fileSize : Nat) : ParsedDocument :=
  let res := workbook.foldl processSheet ("", 0, 0)
  { content := jsTrim res.1,
    metadata :=
      { fileName := fileName, fileType := fileType, fileSize := fileSize,
        sheetNames := some (workbook.map Sheet.name),
        rowCount := some res.2.1,
        columnCount := some res.2.2 } }

/-- One record as csv-parser delivers it: the field names of the header
row paired with the field values of the record, in column order. -/
def CsvRecord : Type := List (String × String)
deriving instance Repr, DecidableEq for CsvRecord

/-- Object.keys of a record: its field names in order. -/
def recordKeys (r : CsvRecord) : List String :=
  (r : List (String × String)).map Prod.fst

/-- Field access row[header] with the OR-empty-string default of the
source: a missing field renders as empty text, and an empty value stays
empty. -/
def fieldValue (r : CsvRecord) (k : String) : String :=
  match (r : List (String × String)).find? (fun p => p.1 = k) with
  | some p => p.2
  | none => ""

/-- parseCSV of the source, applied to the record list the csv-parser
stream delivered. The stream error path is handled by the dispatcher
model; this function embeds the end-of-stream callback, which is total on
its record list. -/
def parseCSV (results : List CsvRecord) (fileName fileType : String)
    (fileSize : Nat) : ParsedDocument :=
  let content :=
    match results with
    | [] => ""
    | first :: _ =>
      let headers := recordKeys first
      let c := "Headers: " ++ String.intercalate " | " headers ++ "\n"
      let c := c ++ "Data (" ++ toString results.length ++ " rows):\n"
      let c := c ++ String.join ((results.take 20).enum.map
        (fun (p : Nat × CsvRecord) => "Row " ++ toString (p.1 + 1) ++ ": " ++
          String.intercalate " | " (headers.map (fieldValue p.2)) ++ "\n"))
      if results.length > 20 then
        c ++ "... and " ++ toString (results.length - 20) ++ " more rows\n"
      else c
  { content := jsTrim content,
    metadata :=
      { fileName := fileName, fileType := fileType, fileSize := fileSize,
        rowCount := some results.length,
        columnCount := some (match results with
          | [] => 0
          | first :: _ => (recordKeys first).length) } }

/-- parseDocument of the source: extension dispatch plus the catch that
wraps any extractor failure. The three collaborator outcomes are inputs;
the PDF branch is total (parsePDF absorbs its failure), the workbook and
csv branches propagate a wrapped failure of their decoder. -/
def parseDocument (file : FileDescriptor) (pdfSvc : Except String PdfResponse)
    (workbook : Except String (List Sheet))
    (csvData : Except String (List CsvRecord)) : Except String ParsedDocument :=
  let extension := getExtension file.name
  if extension = "pdf" then
    .ok (parsePDF pdfSvc file.name file.type file.size)
  else if extension = "xlsx" ∨ extension = "xls" then
    match workbook with
    | .ok wb => .ok (parseExcel wb file.name file.type file.size)
    | .error e => .error ("Failed to parse document: " ++ e)
  else if extension = "csv" then
    match csvData with
    | .ok results => .ok (parseCSV results file.name file.type file.size)
    | .error e => .error ("Failed to parse document: " ++ e)
  else
    .error ("Failed to parse document: Unsupported file type: " ++ extension)

/-- The isPDF test of generateAnalysisPrompt: declared MIME type or
lowercased file-name suffix. -/
def isPDFCheck (m : DocumentMetadata) : Bool :=
  m.fileType == "application/pdf" || jsEndsWith (jsToLower m.fileName) ".pdf"

/-- The hasContent test of generateAnalysisPrompt: more than 200
characters and no occurrence of the literal marker text Document Analysis
Request. -/
def hasContentCheck (content : String) : Bool :=
  decide (200 < content.length) && !(containsStr content "Document Analysis Request")

/-- Conditional Pages line of the metadata block: emitted when pageCount
is truthy, so a present 0 emits nothing. -/
def pagesLine (m : DocumentMetadata) : String :=
  match m.pageCount with
  | some n => if n = 0 then "" else "- Pages: " ++ toString n ++ "\n"
  | none => ""

/-- Conditional Sheets line of the metadata block: emitted whenever
sheetNames is present (a JS array is truthy even when empty). -/
def sheetsLine (m : DocumentMetadata) : String :=
  match m.sheetNames with
  | some names => "- Sheets: " ++ String.intercalate ", " names ++ "\n"
  | none => ""

/-- Conditional Rows line of the metadata block: emitted when rowCount is
truthy, so a present 0 emits nothing. -/
def rowsLine (m : DocumentMetadata) : String :=
  match m.rowCount with
  | some n => if n = 0 then "" else "- Rows: " ++ toString n ++ "\n"
  | none => ""

/-- Conditional Columns line of the metadata block: emitted when
columnCount is truthy, so a present 0 emits nothing. -/
def colsLine (m : DocumentMetadata) : String :=
  match m.columnCount with
  | some n => if n = 0 then "" else "- Columns: " ++ toString n ++ "\n"
  | none => ""

/-- Question block of the prompt: the quoted user question when one is
given and non-empty, the comprehensive-analysis instruction otherwise. -/
def questionBlock (userMessage : Option String) : String :=
  match userMessage with
  | some msg =>
    if msg = "" then
      "The user has uploaded this document without a specific question. Please provide a comprehensive analysis.\n\n"
    else
      "USER\x27S QUESTION: \"" ++ msg ++ "\"\n\n" ++
      "Please answer the user\x27s question using the document content above. If the document doesn\x27t contain enough information to fully answer their question, let them know what information is available and suggest what additional information might be needed.\n\n"
  | none =>
    "The user has uploaded this document without a specific question. Please provide a comprehensive analysis.\n\n"

/-- PDF-specific guidance appended when isPDF holds and hasContent does
not. -/
def pdfGuidance : String :=
  "Since this is a PDF with limited text extraction, please:\n" ++
  "1. Answer the user\x27s question based on available metadata and any extracted content\n" ++
  "2. Explain what types of information could be found in this PDF\n" ++
  "3. Suggest alternative ways to get the information they need\n"

/-- Generic five-point guidance appended otherwise. -/
def genericGuidance : String :=
  "Please provide a helpful response that:\n" ++
  "1. Directly answers the user\x27s question using the document content\n" ++
  "2. References specific text, data, or sections from the document when relevant\n" ++
  "3. Highlights key insights, patterns, or trends found in the document\n" ++
  "4. Provides actionable recommendations based on the document findings\n" ++
  "5. If the document doesn\x27t contain enough information to fully answer the question, explain what information is available and what additional details might be needed\n"

/-- generateAnalysisPrompt of the source: fixed preamble, metadata block,
verbatim content, question block, then one of the two guidance blocks. -/
def generateAnalysisPrompt (parsedDoc : ParsedDocument)
    (userMessage : Option String) : String :=
  let content := parsedDoc.content
  let m := parsedDoc.metadata
  let isPDF := isPDFCheck m
  let hasContent := hasContentCheck content
  let prompt := "You are analyzing a document to answer a user\x27s question. Please focus on answering their specific question using the document content.\n\n"
  let prompt := prompt ++ "Document Information:\n"
  let prompt := prompt ++ "- File: " ++ m.fileName ++ "\n"
  let prompt := prompt ++ "- Type: " ++ m.fileType ++ "\n"
  let prompt := prompt ++ "- Size: " ++ toFixed2KB m.fileSize ++ " KB\n"
  let prompt := prompt ++ pagesLine m ++ sheetsLine m ++ rowsLine m ++ colsLine m
  let prompt := prompt ++ "\nDocument Content:\n" ++ content ++ "\n\n"
  let prompt := prompt ++ questionBlock userMessage
  let prompt := prompt ++ (if isPDF && !hasContent then pdfGuidance else genericGuidance)
  prompt

/-!
Concrete examples used by the theorems: the two-sheet workbook of the
spreadsheet test (one sheet with a header row and 15 non-blank data rows,
one empty sheet), a workbook with a fully blank row between two data
rows, and the 25-record CSV of the delimited-text test.
-/

/-- Workbook with 2 sheets: Sheet1 holds a header row and 15 non-blank
data rows, Sheet2 is empty. -/
def exampleWorkbook : List Sheet :=
  [⟨"Sheet1", [some "a", some "b", some "c"] ::
      (List.range 15).map (fun i => [some ("v" ++ toString i)])⟩,
   ⟨"Sheet2", []⟩]

/-- Workbook with one sheet whose second data row is fully blank. -/
def blankRowWorkbook : List Sheet :=
  [⟨"S", [[some "h"], [some "a"], [none, some ""], [some "b"]]⟩]

/-- CSV parse result with headers a, b, c and 25 data records. -/
def exampleCsvRecords : List CsvRecord :=
  (List.range 25).map (fun i => [("a", toString i), ("b", "x" ++ toString i), ("c", "y")])

/-!
Helper lemmas about string concatenation, shared by several claims.
-/

/-- A string of positive length is not the empty string. -/
theorem ne_empty_of_length_pos (s : String) (h : 0 < s.length) : s ≠ "" := by
  intro he
  rw [he] at h
  exact absurd h (by decide)

/-- Appending on the right preserves having a given prefix. -/
theorem prefix_extend (p s t : String) (h : ∃ r, s = p ++ r) :
    ∃ r, s ++ t = p ++ r := by
  obtain ⟨r, rfl⟩ := h
  exact ⟨r ++ t, String.append_assoc p r t⟩

/-- Appending on the right preserves containing a given infix. -/
theorem mid_extend (y s t : String) (h : ∃ a b, s = a ++ y ++ b) :
    ∃ a b, s ++ t = a ++ y ++ b := by
  obtain ⟨a, b, rfl⟩ := h
  exact ⟨a, b ++ t, String.append_assoc (a ++ y) b t⟩

/-!
The claims.
-/

set_option maxRecDepth 40000

/-- C1, counterexample: the claim says content is always non-empty for
every accepted input, in particular for a CSV file with zero records; but
parseCSV renders no text at all for an empty record list, so the content
of the resulting document is the empty string and no placeholder is
substituted. -/
theorem C1_empty_csv_counterexample :
    (parseCSV [] "data.csv" "text/csv" 10).content = "" := by decide

/-- C1, amended: the PDF extractor always returns non-empty content (both
its empty-extraction placeholder and its failure fallback are non-empty),
and a workbook whose sheets are all empty yields non-empty content (the
sheet section markers remain); but a CSV file with zero records yields
empty content. -/
theorem C1_content_nonempty_amended :
    (∀ (svc : Except String PdfResponse) (fileName fileType : String) (fileSize : Nat),
      (parsePDF svc fileName fileType fileSize).content ≠ "") ∧
    (parseExcel [⟨"Sheet1", []⟩, ⟨"Sheet2", []⟩] "book.xlsx"
      "application/vnd.ms-excel" 100).content ≠ "" ∧
    (parseCSV [] "data.csv" "text/csv" 10).content = "" := by
  refine ⟨?_, by decide, by decide⟩
  intro svc fileName fileType fileSize
  apply ne_empty_of_length_pos
  have h0 : 0 < ("PDF file: " : String).length := by decide
  cases svc with
  | error e =>
    have hc : (parsePDF (.error e) fileName fileType fileSize).content
        = pdfFallbackContent fileName fileType fileSize := rfl
    rw [hc]
    unfold pdfFallbackContent
    simp only [String.length_append]
    omega
  | ok data =>
    rcases data with ⟨c, pc⟩
    cases c with
    | none =>
      have hc : (parsePDF (.ok ⟨none, pc⟩) fileName fileType fileSize).content
          = "PDF file: " ++ fileName ++ "\n\nNote: Could not extract text content from this PDF." := rfl
      rw [hc]
      simp only [String.length_append]
      omega
    | some s =>
      by_cases hs : s = ""
      · have hc : (parsePDF (.ok ⟨some s, pc⟩) fileName fileType fileSize).content
            = if s = "" then
                "PDF file: " ++ fileName ++ "\n\nNote: Could not extract text content from this PDF."
              else s := rfl
        rw [hc, if_pos hs]
        simp only [String.length_append]
        omega
      · have hc : (parsePDF (.ok ⟨some s, pc⟩) fileName fileType fileSize).content
            = if s = "" then
                "PDF file: " ++ fileName ++ "\n\nNote: Could not extract text content from this PDF."
              else s := rfl
        rw [hc, if_neg hs]
        rcases Nat.eq_zero_or_pos s.length with h | h
        · exact absurd (String.ext (by simpa using List.length_eq_zero.mp h)) hs
        · exact h

/-- C2, evaluation at the failing input: the PDF fallback document for a
failing extraction service has content longer than 200 characters that
does not contain the marker Document Analysis Request checked by
hasContentCheck, so hasContent evaluates to true, the isPDF-and-not-
hasContent branch is not taken, and the composed prompt carries the
generic five-point guidance instead of the PDF-specific guidance the
claim describes. -/
theorem C2_marker_mismatch_eval :
    hasContentCheck (parsePDF (.error "service unavailable") "report.pdf"
      "application/pdf" 102400).content = true ∧
    isPDFCheck (parsePDF (.error "service unavailable") "report.pdf"
      "application/pdf" 102400).metadata = true ∧
    containsStr (parsePDF (.error "service unavailable") "report.pdf"
      "application/pdf" 102400).content "Document Analysis Request" = false ∧
    containsStr (generateAnalysisPrompt (parsePDF (.error "service unavailable")
      "report.pdf" "application/pdf" 102400) none)
      "Since this is a PDF with limited text extraction" = false ∧
    containsStr (generateAnalysisPrompt (parsePDF (.error "service unavailable")
      "report.pdf" "application/pdf" 102400) none)
      "Please provide a helpful response that:" = true := by
  decide

/-- C3: whenever the primary extraction path fails, for any reason and
any input, parsePDF returns (rather than raising, being total) a document
with pageCount 1 whose content contains the file name, the file size in
KB formatted to two decimal places, and the note that text could not be
extracted. -/
theorem C3_pdf_fallback_total :
    ∀ (err fileName fileType : String) (fileSize : Nat),
      (parsePDF (.error err) fileName fileType fileSize).metadata.pageCount = some 1 ∧
      (∃ a b, (parsePDF (.error err) fileName fileType fileSize).content
        = a ++ fileName ++ b) ∧
      (∃ a b, (parsePDF (.error err) fileName fileType fileSize).content
        = a ++ toFixed2KB fileSize ++ b) ∧
      (∃ a b, (parsePDF (.error err) fileName fileType fileSize).content
        = a ++ "Could not extract text content from this PDF file" ++ b) := by
  intro err fileName fileType fileSize
  have hc : (parsePDF (.error err) fileName fileType fileSize).content
      = pdfFallbackContent fileName fileType fileSize := rfl
  refine ⟨rfl, ?_, ?_, ?_⟩
  · rw [hc]; unfold pdfFallbackContent
    exact ⟨"PDF file: ",
      "\n\nFile Information:\n- File Name: " ++ fileName ++ "\n- File Type: " ++ fileType
        ++ "\n- File Size: " ++ toFixed2KB fileSize
        ++ " KB\n- Document Format: PDF\n\nNote: Could not extract text content from this PDF file. Please try uploading a CSV or Excel file for full content analysis, or describe what you\x27re looking for in this PDF and I can provide guidance.",
      by simp only [String.append_assoc]⟩
  · rw [hc]; unfold pdfFallbackContent
    exact ⟨"PDF file: " ++ fileName ++ "\n\nFile Information:\n- File Name: " ++ fileName
        ++ "\n- File Type: " ++ fileType ++ "\n- File Size: ",
      " KB\n- Document Format: PDF\n\nNote: Could not extract text content from this PDF file. Please try uploading a CSV or Excel file for full content analysis, or describe what you\x27re looking for in this PDF and I can provide guidance.",
      by simp only [String.append_assoc]⟩
  · rw [hc]; unfold pdfFallbackContent
    have hsplit : (" KB\n- Document Format: PDF\n\nNote: Could not extract text content from this PDF file. Please try uploading a CSV or Excel file for full content analysis, or describe what you\x27re looking for in this PDF and I can provide guidance." : String)
        = " KB\n- Document Format: PDF\n\nNote: "
          ++ "Could not extract text content from this PDF file"
          ++ ". Please try uploading a CSV or Excel file for full content analysis, or describe what you\x27re looking for in this PDF and I can provide guidance." := by
      decide
    rw [hsplit]
    exact ⟨"PDF file: " ++ fileName ++ "\n\nFile Information:\n- File Name: " ++ fileName
        ++ "\n- File Type: " ++ fileType ++ "\n- File Size: " ++ toFixed2KB fileSize
        ++ " KB\n- Document Format: PDF\n\nNote: ",
      ". Please try uploading a CSV or Excel file for full content analysis, or describe what you\x27re looking for in this PDF and I can provide guidance.",
      by simp only [String.append_assoc]⟩

/-- C4: parseDocument routes by the lowercased extension after the last
dot: pdf to the PDF extractor, xlsx and xls to the spreadsheet extractor,
csv to the delimited-text extractor, and fails for every other extension
with an error message naming that extension, producing no document. -/
theorem C4_extension_dispatch :
    ∀ (file : FileDescriptor) (pdfSvc : Except String PdfResponse)
      (workbook : Except String (List Sheet)) (csvData : Except String (List CsvRecord)),
      (getExtension file.name ∉ (["pdf", "xlsx", "xls", "csv"] : List String) →
        parseDocument file pdfSvc workbook csvData
          = .error ("Failed to parse document: Unsupported file type: "
              ++ getExtension file.name)) ∧
      (getExtension file.name = "pdf" →
        parseDocument file pdfSvc workbook csvData
          = .ok (parsePDF pdfSvc file.name file.type file.size)) ∧
      ((getExtension file.name = "xlsx" ∨ getExtension file.name = "xls") →
        parseDocument file pdfSvc workbook csvData
          = match workbook with
            | .ok wb => .ok (parseExcel wb file.name file.type file.size)
            | .error e => .error ("Failed to parse document: " ++ e)) ∧
      (getExtension file.name = "csv" →
        parseDocument file pdfSvc workbook csvData
          = match csvData with
            | .ok results => .ok (parseCSV results file.name file.type file.size)
            | .error e => .error ("Failed to parse document: " ++ e)) := by
  intro file pdfSvc workbook csvData
  refine ⟨?_, ?_, ?_, ?_⟩
  · intro h
    have h1 : getExtension file.name ≠ "pdf" := fun e => h (by simp [e])
    have h2 : getExtension file.name ≠ "xlsx" := fun e => h (by simp [e])
    have h3 : getExtension file.name ≠ "xls" := fun e => h (by simp [e])
    have h4 : getExtension file.name ≠ "csv" := fun e => h (by simp [e])
    simp [parseDocument, h1, h2, h3, h4]
  · intro h
    simp [parseDocument, h]
  · intro h
    have h1 : getExtension file.name ≠ "pdf" := by
      rcases h with h | h <;> rw [h] <;> decide
    simp [parseDocument, h1, h]
  · intro h
    have h1 : getExtension file.name ≠ "pdf" := by rw [h]; decide
    have h2 : getExtension file.name ≠ "xlsx" := by rw [h]; decide
    have h3 : getExtension file.name ≠ "xls" := by rw [h]; decide
    simp [parseDocument, h, h1, h2, h3]

/-- Survivor count of one sheet, stated as the specification phrases it:
the number of rows after the header row that keep at least one cell that
is neither absent nor empty. -/
def specSheetSurvivors (sheet : Sheet) : Nat :=
  match sheet.rows with
  | [] => 0
  | _ :: rest => (rest.filter (fun row => row.any cellNonEmpty)).length

/-- The row-count component of one loop iteration of parseExcel adds
exactly the surviving rows of the processed sheet. -/
theorem processSheet_rowcount (acc : String × Nat × Nat) (sheet : Sheet) :
    (processSheet acc sheet).2.1 = acc.2.1 + specSheetSurvivors sheet := by
  rcases sheet with ⟨nm, rows⟩
  cases rows with
  | nil => simp [processSheet, specSheetSurvivors]
  | cons hd tl => simp [processSheet, specSheetSurvivors]

/-- The sheet loop of parseExcel accumulates the survivor counts of all
sheets on top of the starting accumulator. -/
theorem foldl_rowcount (wb : List Sheet) :
    ∀ acc : String × Nat × Nat,
      (wb.foldl processSheet acc).2.1 = acc.2.1 + (wb.map specSheetSurvivors).sum := by
  induction wb with
  | nil => intro acc; simp
  | cons sh rest ih =>
    intro acc
    rw [List.foldl_cons, ih, processSheet_rowcount]
    simp [Nat.add_assoc]

/-- C5: for every workbook, rowCount is the sum over all sheets of the
surviving (not fully blank) data rows, fully blank rows being discarded;
on the two-sheet example workbook (15 non-blank data rows plus an empty
sheet) the result has rowCount 15, both sheet names, exactly one
remainder line counting 5 more rows, exactly 10 rendered row lines, and
no Row 11 line; and a fully blank row between two data rows is excluded
from rowCount, from the rendered row count and from the row lines. -/
theorem C5_excel_truncation :
    (∀ (wb : List Sheet) (fileName fileType : String) (fileSize : Nat),
      (parseExcel wb fileName fileType fileSize).metadata.rowCount
        = some ((wb.map specSheetSurvivors).sum) ∧
      (parseExcel wb fileName fileType fileSize).metadata.sheetNames
        = some (wb.map Sheet.name)) ∧
    ((parseExcel exampleWorkbook "book.xlsx" "application/vnd.ms-excel" 2048).metadata.rowCount
        = some 15 ∧
     (parseExcel exampleWorkbook "book.xlsx" "application/vnd.ms-excel" 2048).metadata.sheetNames
        = some ["Sheet1", "Sheet2"] ∧
     countOccur (parseExcel exampleWorkbook "book.xlsx" "application/vnd.ms-excel" 2048).content
        "... and 5 more rows" = 1 ∧
     countOccur (parseExcel exampleWorkbook "book.xlsx" "application/vnd.ms-excel" 2048).content
        "Row " = 10 ∧
     containsStr (parseExcel exampleWorkbook "book.xlsx" "application/vnd.ms-excel" 2048).content
        "Row 10:" = true ∧
     containsStr (parseExcel exampleWorkbook "book.xlsx" "application/vnd.ms-excel" 2048).content
        "Row 11:" = false) ∧
    ((parseExcel blankRowWorkbook "s.xlsx" "application/vnd.ms-excel" 64).metadata.rowCount
        = some 2 ∧
     containsStr (parseExcel blankRowWorkbook "s.xlsx" "application/vnd.ms-excel" 64).content
        "Data (2 rows)" = true ∧
     containsStr (parseExcel blankRowWorkbook "s.xlsx" "application/vnd.ms-excel" 64).content
        "Row 3" = false) := by
  refine ⟨?_, by decide, by decide⟩
  intro wb fileName fileType fileSize
  constructor
  · have hr : (parseExcel wb fileName fileType fileSize).metadata.rowCount
        = some ((wb.foldl processSheet ("", 0, 0)).2.1) := rfl
    rw [hr, foldl_rowcount]
    simp
  · rfl

/-- C6: for every record list, rowCount is the full record count and
columnCount the field count of the first record (0 with no records); on
the 25-record example with headers a, b, c the result has columnCount 3,
rowCount 25, row lines 1 and 20 rendered, no row line 21, and exactly one
remainder line counting 5 more rows. -/
theorem C6_csv_rendering :
    (∀ (results : List CsvRecord) (fileName fileType : String) (fileSize : Nat),
      (parseCSV results fileName fileType fileSize).metadata.rowCount
        = some results.length ∧
      (parseCSV results fileName fileType fileSize).metadata.columnCount
        = some ((results.head?.map (fun r => (recordKeys r).length)).getD 0)) ∧
    ((parseCSV exampleCsvRecords "data.csv" "text/csv" 4096).metadata.columnCount = some 3 ∧
     (parseCSV exampleCsvRecords "data.csv" "text/csv" 4096).metadata.rowCount = some 25 ∧
     containsStr (parseCSV exampleCsvRecords "data.csv" "text/csv" 4096).content
        "Row 1:" = true ∧
     containsStr (parseCSV exampleCsvRecords "data.csv" "text/csv" 4096).content
        "Row 20:" = true ∧
     containsStr (parseCSV exampleCsvRecords "data.csv" "text/csv" 4096).content
        "Row 21:" = false ∧
     countOccur (parseCSV exampleCsvRecords "data.csv" "text/csv" 4096).content
        "... and 5 more rows" = 1) := by
  refine ⟨?_, by decide⟩
  intro results fileName fileType fileSize
  cases results with
  | nil => exact ⟨rfl, rfl⟩
  | cons a t => exact ⟨rfl, rfl⟩

/-- C7, counterexample: the claim says every present optional metadata
field produces its own line; but a CSV file with zero records produces a
document whose rowCount and columnCount are present with value 0, and the
composed prompt carries neither a Rows nor a Columns line, because the
truthiness test of the composer treats a present 0 like absence. -/
theorem C7_present_zero_counterexample :
    (parseCSV [] "empty.csv" "text/csv" 5).metadata.rowCount = some 0 ∧
    (parseCSV [] "empty.csv" "text/csv" 5).metadata.columnCount = some 0 ∧
    containsStr (generateAnalysisPrompt (parseCSV [] "empty.csv" "text/csv" 5) none)
      "- Rows:" = false ∧
    containsStr (generateAnalysisPrompt (parseCSV [] "empty.csv" "text/csv" 5) none)
      "- Columns:" = false := by
  decide

/-- C7, amended: each optional numeric metadata field (pageCount,
rowCount, columnCount) produces its own line exactly when it is present
with a nonzero value, a present zero producing no line; sheetNames
produces its line whenever present; absent fields produce no line; the
four conditional lines appear in the composed prompt between the fixed
metadata head and the content block; and fields not applicable to a
format are absent from the metadata of the respective extractor. -/
theorem C7_metadata_lines_amended :
    (∀ m : DocumentMetadata,
      (m.pageCount = none ∨ m.pageCount = some 0 → pagesLine m = "") ∧
      (∀ n, m.pageCount = some n → n ≠ 0 →
        pagesLine m = "- Pages: " ++ toString n ++ "\n") ∧
      (m.sheetNames = none → sheetsLine m = "") ∧
      (∀ l, m.sheetNames = some l →
        sheetsLine m = "- Sheets: " ++ String.intercalate ", " l ++ "\n") ∧
      (m.rowCount = none ∨ m.rowCount = some 0 → rowsLine m = "") ∧
      (∀ n, m.rowCount = some n → n ≠ 0 →
        rowsLine m = "- Rows: " ++ toString n ++ "\n") ∧
      (m.columnCount = none ∨ m.columnCount = some 0 → colsLine m = "") ∧
      (∀ n, m.columnCount = some n → n ≠ 0 →
        colsLine m = "- Columns: " ++ toString n ++ "\n")) ∧
    (∀ (parsedDoc : ParsedDocument) (userMessage : Option String),
      ∃ a b, generateAnalysisPrompt parsedDoc userMessage
        = a ++ (pagesLine parsedDoc.metadata ++ (sheetsLine parsedDoc.metadata
            ++ (rowsLine parsedDoc.metadata ++ colsLine parsedDoc.metadata))) ++ b) ∧
    (∀ (svc : Except String PdfResponse) (n t : String) (s : Nat),
      (parsePDF svc n t s).metadata.sheetNames = none ∧
      (parsePDF svc n t s).metadata.rowCount = none ∧
      (parsePDF svc n t s).metadata.columnCount = none) ∧
    (∀ (wb : List Sheet) (n t : String) (s : Nat),
      (parseExcel wb n t s).metadata.pageCount = none) ∧
    (∀ (results : List CsvRecord) (n t : String) (s : Nat),
      (parseCSV results n t s).metadata.pageCount = none ∧
      (parseCSV results n t s).metadata.sheetNames = none) := by
  refine ⟨?_, ?_, ?_, ?_, ?_⟩
  · intro m
    refine ⟨?_, ?_, ?_, ?_, ?_, ?_, ?_, ?_⟩
    · rintro (h | h) <;> simp [pagesLine, h]
    · intro n hn hne; simp [pagesLine, hn, hne]
    · intro h; simp [sheetsLine, h]
    · intro l hl; simp [sheetsLine, hl]
    · rintro (h | h) <;> simp [rowsLine, h]
    · intro n hn hne; simp [rowsLine, hn, hne]
    · rintro (h | h) <;> simp [colsLine, h]
    · intro n hn hne; simp [colsLine, hn, hne]
  · intro doc msg
    simp only [generateAnalysisPrompt]
    apply mid_extend
    apply mid_extend
    apply mid_extend
    apply mid_extend
    apply mid_extend
    exact ⟨"You are analyzing a document to answer a user\x27s question. Please focus on answering their specific question using the document content.\n\n"
        ++ "Document Information:\n" ++ "- File: " ++ doc.metadata.fileName ++ "\n"
        ++ "- Type: " ++ doc.metadata.fileType ++ "\n"
        ++ "- Size: " ++ toFixed2KB doc.metadata.fileSize ++ " KB\n", "",
      by simp only [String.append_assoc, String.append_empty]⟩
  · intro svc n t s; cases svc <;> exact ⟨rfl, rfl, rfl⟩
  · intro wb n t s; rfl
  · intro results n t s; exact ⟨rfl, rfl⟩

/-- C8: for every supported extension and every collaborator outcome, a
document returned by parseDocument carries the file name, declared MIME
type and byte size of the input descriptor unchanged. -/
theorem C8_metadata_passthrough :
    ∀ (file : FileDescriptor) (pdfSvc : Except String PdfResponse)
      (workbook : Except String (List Sheet)) (csvData : Except String (List CsvRecord))
      (doc : ParsedDocument),
      getExtension file.name ∈ (["pdf", "xlsx", "xls", "csv"] : List String) →
      parseDocument file pdfSvc workbook csvData = .ok doc →
      doc.metadata.fileName = file.name ∧ doc.metadata.fileType = file.type ∧
        doc.metadata.fileSize = file.size := by
  intro file svc wb cd doc hmem heq
  simp only [parseDocument] at heq
  by_cases h1 : getExtension file.name = "pdf"
  · rw [if_pos h1] at heq
    simp only [Except.ok.injEq] at heq
    subst heq
    cases svc <;> exact ⟨rfl, rfl, rfl⟩
  · by_cases h2 : getExtension file.name = "xlsx" ∨ getExtension file.name = "xls"
    · rw [if_neg h1, if_pos h2] at heq
      cases wb with
      | ok sheets =>
        simp only [Except.ok.injEq] at heq
        subst heq
        exact ⟨rfl, rfl, rfl⟩
      | error e => simp at heq
    · by_cases h3 : getExtension file.name = "csv"
      · rw [if_neg h1, if_neg h2, if_pos h3] at heq
        cases cd with
        | ok results =>
          simp only [Except.ok.injEq] at heq
          subst heq
          exact ⟨rfl, rfl, rfl⟩
        | error e => simp at heq
      · exfalso
        simp only [List.mem_cons, List.mem_singleton, List.not_mem_nil, or_false] at hmem
        rcases hmem with h | h | h | h
        · exact h1 h
        · exact h2 (Or.inl h)
        · exact h2 (Or.inr h)
        · exact h3 h

/-- C8 witness: the theorem applied to a concrete empty CSV upload. -/
theorem C8_metadata_passthrough_witness :
    (parseCSV [] "t.csv" "text/csv" 7).metadata.fileName = "t.csv" ∧
    (parseCSV [] "t.csv" "text/csv" 7).metadata.fileType = "text/csv" ∧
    (parseCSV [] "t.csv" "text/csv" 7).metadata.fileSize = 7 :=
  C8_metadata_passthrough ⟨"t.csv", "text/csv", 7⟩ (.error "down") (.ok []) (.ok [])
    (parseCSV [] "t.csv" "text/csv" 7) (by decide) rfl

/-- C9: the composer is a pure total function of its two arguments: the
same document and message always give the same string, and the result is
always the fixed analyst preamble followed by the rest of the prompt, on
every document, including degenerate ones with empty content and no
optional metadata. -/
theorem C9_composer_pure :
    ∀ (parsedDoc : ParsedDocument) (userMessage : Option String),
      generateAnalysisPrompt parsedDoc userMessage
        = generateAnalysisPrompt parsedDoc userMessage ∧
      ∃ r, generateAnalysisPrompt parsedDoc userMessage
        = "You are analyzing a document to answer a user\x27s question. Please focus on answering their specific question using the document content.\n\n" ++ r := by
  intro doc msg
  refine ⟨rfl, ?_⟩
  simp only [generateAnalysisPrompt]
  repeat apply prefix_extend
  exact ⟨"", (String.append_empty _).symm⟩

/-- C10, counterexample: for the dot-free upper-case file name README the
dispatcher lowercases the whole name into the extension, so the failure
message carries readme and does not name the file name README itself. -/
theorem C10_lowercased_name_counterexample :
    parseDocument ⟨"README", "text/plain", 3⟩ (.error "down") (.ok []) (.ok [])
      = .error "Failed to parse document: Unsupported file type: readme" ∧
    containsStr "Failed to parse document: Unsupported file type: readme" "README" = false :=
  ⟨rfl, by decide⟩

/-- C10, amended: a file name without a dot is used whole, lowercased, as
the extension: the names csv, pdf, xlsx and xls dispatch to the
respective extractor, and any other dot-free name fails with an error
naming the lowercased file name. -/
theorem C10_dotfree_dispatch_amended :
    (∀ (t : String) (s : Nat) (svc : Except String PdfResponse)
        (wb : Except String (List Sheet)) (results : List CsvRecord),
      parseDocument ⟨"csv", t, s⟩ svc wb (.ok results)
        = .ok (parseCSV results "csv" t s)) ∧
    (∀ (t : String) (s : Nat) (svc : Except String PdfResponse)
        (wb : Except String (List Sheet)) (cd : Except String (List CsvRecord)),
      parseDocument ⟨"pdf", t, s⟩ svc wb cd = .ok (parsePDF svc "pdf" t s)) ∧
    (∀ (t : String) (s : Nat) (svc : Except String PdfResponse)
        (sheets : List Sheet) (cd : Except String (List CsvRecord)),
      parseDocument ⟨"xlsx", t, s⟩ svc (.ok sheets) cd
        = .ok (parseExcel sheets "xlsx" t s)) ∧
    (∀ (t : String) (s : Nat) (svc : Except String PdfResponse)
        (sheets : List Sheet) (cd : Except String (List CsvRecord)),
      parseDocument ⟨"xls", t, s⟩ svc (.ok sheets) cd
        = .ok (parseExcel sheets "xls" t s)) ∧
    (∀ (nm t : String) (s : Nat) (svc : Except String PdfResponse)
        (wb : Except String (List Sheet)) (cd : Except String (List CsvRecord)),
      jsSplitDot nm = [nm] →
      jsToLower nm ∉ (["pdf", "xlsx", "xls", "csv"] : List String) →
      parseDocument ⟨nm, t, s⟩ svc wb cd
        = .error ("Failed to parse document: Unsupported file type: " ++ jsToLower nm)) := by
  refine ⟨?_, ?_, ?_, ?_, ?_⟩
  · intro t s svc wb results; rfl
  · intro t s svc wb cd; rfl
  · intro t s svc sheets cd; rfl
  · intro t s svc sheets cd; rfl
  · intro nm t s svc wb cd hsplit hmem
    have hext : getExtension nm = jsToLower nm := by
      unfold getExtension
      rw [hsplit]
      rfl
    have h1 : jsToLower nm ≠ "pdf" := fun e => hmem (by simp [e])
    have h2 : jsToLower nm ≠ "xlsx" := fun e => hmem (by simp [e])
    have h3 : jsToLower nm ≠ "xls" := fun e => hmem (by simp [e])
    have h4 : jsToLower nm ≠ "csv" := fun e => hmem (by simp [e])
    simp [parseDocument, hext, h1, h2, h3, h4]
